import Mathlib

/-!
Verification of `processor.py` from the Streamlit Anki Quiz App.

The module is embedded shallowly:

* Python values that reach this module are modelled by `Value`
  (strings, lists of strings, and integers — the shapes the module's
  `isinstance(question['Answers'], (list, str))` check distinguishes).
* a question dictionary is an association list `Question`;
  `in`-tests and `dict.get` are modelled on it.
* Python exceptions (`KeyError`, `IndexError`, `TypeError`, `ValueError`)
  become `Except PyError`; functions that may raise return `Except`.
* `random.shuffle` is modelled by passing the permutation explicitly:
  `get_shuffled_options` takes a `shuffle` function as a parameter, and
  theorems assume it permutes its input.
-/

deriving instance DecidableEq for Except

/-- The kinds of Python exception the module can raise. -/
inductive PyError where
  | keyError : PyError
  | indexError : PyError
  | typeError : PyError
  | valueError : PyError
deriving DecidableEq, Repr

/-- Python values that can appear as fields of a question record. -/
inductive Value where
  | str : String → Value
  | list : List String → Value
  | intV : Int → Value
deriving DecidableEq, Repr

/-- A Python dict mapping field names to values (association list). -/
def Question : Type := List (String × Value)

/-- Dictionary lookup: `question[k]` when present. -/
def Question.get? (q : Question) (k : String) : Option Value :=
  (List.find? (fun p => p.1 == k) q).map (fun p => p.2)

/-- Python `field in question`. -/
def Question.hasField (q : Question) (k : String) : Bool :=
  (q.get? k).isSome

/-- Python `question.get(k, '')`: lookup with default empty string. -/
def Question.getDefault (q : Question) (k : String) : Value :=
  (q.get? k).getD (Value.str "")

/-- Python's whitespace test used by `str.strip` and `str.split`. -/
def pyWs (c : Char) : Bool := c.isWhitespace

/-- Python `str.strip()` on the character list: drop leading and trailing
whitespace. -/
def pyStripChars (cs : List Char) : List Char :=
  ((cs.dropWhile pyWs).reverse.dropWhile pyWs).reverse

/-- Python `str.strip()`. -/
def pyStrip (s : String) : String :=
  String.mk (pyStripChars s.data)

/-- Helper for `pySplit`: walks the characters, `cur` holds the characters
of the current token in reverse. -/
def pySplitAux : List Char → List Char → List String
  | [], cur => if cur.isEmpty then [] else [String.mk cur.reverse]
  | c :: cs, cur =>
    if pyWs c then
      if cur.isEmpty then pySplitAux cs []
      else String.mk cur.reverse :: pySplitAux cs []
    else pySplitAux cs (c :: cur)

/-- Python `str.split()` with no argument: split on runs of whitespace,
discarding empty tokens. -/
def pySplit (s : String) : List String :=
  pySplitAux s.data []

/-- All characters are decimal digits. -/
def allDigits : List Char → Bool
  | [] => true
  | c :: cs => c.isDigit && allDigits cs

/-- Numeric value of a digit string. -/
def digitsToNat (cs : List Char) : Nat :=
  cs.foldl (fun acc c => acc * 10 + (c.toNat - 48)) 0

/-- Core of `int()` after whitespace stripping: an optional sign, then
one or more decimal digits; raises `ValueError` otherwise. -/
def pyIntCore : List Char → Except PyError Int
  | '-' :: rest =>
    if !rest.isEmpty && allDigits rest then Except.ok (-(digitsToNat rest : Int))
    else Except.error PyError.valueError
  | '+' :: rest =>
    if !rest.isEmpty && allDigits rest then Except.ok ((digitsToNat rest : Int))
    else Except.error PyError.valueError
  | cs =>
    if !cs.isEmpty && allDigits cs then Except.ok ((digitsToNat cs : Int))
    else Except.error PyError.valueError

/-- Python `int(s)`: optional surrounding whitespace, an optional sign,
then one or more decimal digits; raises `ValueError` otherwise. -/
def pyInt (s : String) : Except PyError Int :=
  pyIntCore (pyStripChars s.data)

/-- A Python list comprehension `[f x for x in l]` where `f` may raise:
left to right, the first error propagates. -/
def mapExcept (f : α → Except PyError β) : List α → Except PyError (List β)
  | [] => Except.ok []
  | x :: xs =>
    match f x with
    | Except.error e => Except.error e
    | Except.ok y =>
      match mapExcept f xs with
      | Except.error e => Except.error e
      | Except.ok ys => Except.ok (y :: ys)

/-- `parse_answers` (processor.py line 18):
`[int(x) for x in answer_string.strip().split()]`. -/
def parse_answers (answer_string : String) : Except PyError (List Int) :=
  mapExcept pyInt (pySplit (pyStrip answer_string))

/-- `check_answer` (processor.py lines 36-37):
`user_ints = [1 if x else 0 for x in user_answers]`;
`return user_ints == correct_answers[:len(user_ints)]`. -/
def check_answer (user_answers : List Bool) (correct_answers : List Int) : Bool :=
  let user_ints := user_answers.map (fun x => if x then (1 : Int) else 0)
  user_ints == correct_answers.take user_ints.length

/-- Python `question['Answers']`: raises `KeyError` when the field is
absent. -/
def answersField (question : Question) : Except PyError Value :=
  match question.get? "Answers" with
  | none => Except.error PyError.keyError
  | some v => Except.ok v

/-- Python `v[0]` on a module value: first character of a string
(as a one-character string), first element of a list; `IndexError` when
empty, `TypeError` when `v` is not subscriptable. -/
def pyFirst (v : Value) : Except PyError String :=
  match v with
  | Value.str s =>
    match s.data with
    | [] => Except.error PyError.indexError
    | c :: _ => Except.ok (String.mk [c])
  | Value.list l =>
    match l with
    | [] => Except.error PyError.indexError
    | x :: _ => Except.ok x
  | Value.intV _ => Except.error PyError.typeError

/-- `question['Answers'][0]`, the argument fed to `parse_answers` by
`get_question_type` (line 54) and `get_shuffled_options` (line 75). -/
def answersFirst (question : Question) : Except PyError String :=
  match answersField question with
  | Except.error e => Except.error e
  | Except.ok v => pyFirst v

/-- `get_question_type` (processor.py lines 54-56):
parses `question['Answers'][0]`, sums it, and classifies. -/
def get_question_type (question : Question) : Except PyError (String × Int) :=
  match answersFirst question with
  | Except.error e => Except.error e
  | Except.ok s =>
    match parse_answers s with
    | Except.error e => Except.error e
    | Except.ok correct_answers =>
      let num_correct := correct_answers.sum
      Except.ok (if num_correct = 1 then "single" else "multiple", num_correct)

/-- Python `question.get(f'Q_{i}', '').strip()`: `TypeError` when the
slot holds a non-string value. -/
def slotStripped (question : Question) (i : Nat) : Except PyError String :=
  match question.getDefault ("Q_" ++ toString i) with
  | Value.str s => Except.ok (pyStrip s)
  | _ => Except.error PyError.typeError

/-- The flag paired with slot `i` (processor.py line 81):
`correct_answers[i-1] if i-1 < len(correct_answers) else 0`. -/
def slotFlag (correct_answers : List Int) (i : Nat) : Int :=
  if h : i - 1 < correct_answers.length then correct_answers.get ⟨i - 1, h⟩ else 0

/-- The `for i in range(1, 7)` loop of `get_shuffled_options`
(lines 78-82): `acc` is the `options` list built by `append`. -/
def collectLoop (correct_answers : List Int) (question : Question) :
    List Nat → List (String × Int) → Except PyError (List (String × Int))
  | [], acc => Except.ok acc
  | i :: is, acc =>
    match slotStripped question i with
    | Except.error e => Except.error e
    | Except.ok option =>
      if option ≠ "" then
        collectLoop correct_answers question is (acc ++ [(option, slotFlag correct_answers i)])
      else
        collectLoop correct_answers question is acc

/-- The `(option, flag)` pairs of `get_shuffled_options` before the
shuffle, in slot order. -/
def collectOptions (question : Question) : Except PyError (List (String × Int)) :=
  match answersFirst question with
  | Except.error e => Except.error e
  | Except.ok s =>
    match parse_answers s with
    | Except.error e => Except.error e
    | Except.ok correct_answers =>
      collectLoop correct_answers question [1, 2, 3, 4, 5, 6] []

/-- `get_shuffled_options` (processor.py lines 58-89). `random.shuffle`
is modelled by the explicit `shuffle` parameter; theorems assume it is a
permutation. -/
def get_shuffled_options (shuffle : List (String × Int) → List (String × Int))
    (question : Question) : Except PyError (List String × List Int) :=
  match collectOptions question with
  | Except.error e => Except.error e
  | Except.ok options =>
    let shuffled := shuffle options
    Except.ok (shuffled.map Prod.fst, shuffled.map Prod.snd)

/-- Python `isinstance(v, (list, str))`. -/
def isListOrStr : Value → Bool
  | Value.str _ => true
  | Value.list _ => true
  | Value.intV _ => false

/-- `validate_question_format` (processor.py lines 91-102). -/
def validate_question_format (question : Question) : Bool × String :=
  if !question.hasField "Question" then
    (false, "Missing required field: Question")
  else if !question.hasField "Answers" then
    (false, "Missing required field: Answers")
  else if !isListOrStr (question.getDefault "Answers") then
    (false, "Invalid 'Answers' format: must be a list or string")
  else
    (true, "")

/-- The `for i, question in enumerate(questions)` loop of
`validate_questions` (lines 109-112), with `i` the 0-based index. -/
def validateLoop : List Question → Nat → Bool × String
  | [], _ => (true, "")
  | question :: rest, i =>
    let r := validate_question_format question
    if !r.1 then (false, "Question " ++ toString (i + 1) ++ ": " ++ r.2)
    else validateLoop rest (i + 1)

/-- `validate_questions` (processor.py lines 104-114). -/
def validate_questions (questions : List Question) : Bool × String :=
  if questions.isEmpty then (false, "No questions found in the deck")
  else validateLoop questions 0

/-- What slot `i` contributes to the `options` list of
`get_shuffled_options`: its trimmed text paired with its flag when the
text is non-empty, nothing otherwise. -/
def slotPair (correct_answers : List Int) (question : Question) (i : Nat) :
    Option (String × Int) :=
  match slotStripped question i with
  | Except.ok t => if t ≠ "" then some (t, slotFlag correct_answers i) else none
  | Except.error _ => none

/-- The trimmed text of slot `i` (empty for a missing slot, and for a
non-string slot, which `get_shuffled_options` rejects anyway). -/
def slotText (question : Question) (i : Nat) : String :=
  match question.getDefault ("Q_" ++ toString i) with
  | Value.str s => pyStrip s
  | _ => ""

/-- The slot indices whose trimmed `Q_i` text is non-empty. -/
def nonEmptySlots (question : Question) : List Nat :=
  ([1, 2, 3, 4, 5, 6] : List Nat).filter (fun i => slotText question i != "")

/-- A question whose `Answers` value is a plain string, used for C10. -/
def strAnswersQ : Question :=
  [("Question", Value.str "Q?"), ("Answers", Value.str "1 1 1"),
   ("Q_1", Value.str "A"), ("Q_2", Value.str "B")]

/-- A comprehension `mapExcept f l` raises exactly when `f` raises on some
element of `l`. -/
theorem mapExcept_error_iff (f : α → Except PyError β) :
    ∀ l : List α, (∃ e, mapExcept f l = Except.error e) ↔
      ∃ x ∈ l, ∃ e, f x = Except.error e := by
  intro l
  induction l with
  | nil =>
    constructor
    · rintro ⟨e, he⟩; cases he
    · rintro ⟨x, hx, _⟩; cases hx
  | cons x xs ih =>
    constructor
    · rintro ⟨e, he⟩
      rw [mapExcept] at he
      cases hfx : f x with
      | error e1 => exact ⟨x, List.mem_cons_self x xs, e1, hfx⟩
      | ok y =>
        rw [hfx] at he
        cases hxs : mapExcept f xs with
        | error e1 =>
          obtain ⟨z, hz, e2, hz2⟩ := ih.mp ⟨e1, hxs⟩
          exact ⟨z, List.mem_cons_of_mem x hz, e2, hz2⟩
        | ok ys => rw [hxs] at he; cases he
    · rintro ⟨z, hz, e, hze⟩
      rcases List.mem_cons.mp hz with hzx | hzxs
      · subst hzx
        exact ⟨e, by rw [mapExcept, hze]⟩
      · cases hfx : f x with
        | error e1 => exact ⟨e1, by rw [mapExcept, hfx]⟩
        | ok y =>
          obtain ⟨e1, he1⟩ := ih.mpr ⟨z, hzxs, e, hze⟩
          exact ⟨e1, by rw [mapExcept, hfx, he1]⟩

/-- The only exception `int()` raises on a string is `ValueError`. -/
theorem pyInt_error (s : String) (e : PyError) (h : pyInt s = Except.error e) :
    e = PyError.valueError := by
  unfold pyInt pyIntCore at h
  split at h <;> split at h <;> simp_all

/-- The only exception `parse_answers`' comprehension raises is
`ValueError`. -/
theorem mapExcept_pyInt_error :
    ∀ (l : List String) (e : PyError), mapExcept pyInt l = Except.error e →
      e = PyError.valueError := by
  intro l
  induction l with
  | nil => intro e h; cases h
  | cons x xs ih =>
    intro e h
    rw [mapExcept] at h
    cases hfx : pyInt x with
    | error e1 =>
      rw [hfx] at h
      injection h with h2
      rw [← h2]
      exact pyInt_error x e1 hfx
    | ok y =>
      rw [hfx] at h
      cases hxs : mapExcept pyInt xs with
      | error e1 =>
        rw [hxs] at h
        injection h with h2
        rw [← h2]
        exact ih e1 hxs
      | ok ys => rw [hxs] at h; cases h

/-- Claim C1: `check_answer(user_answers, correct_answers)` is true iff
mapping each boolean of `user_answers` to 1/0 equals the prefix of
`correct_answers` of length `len(user_answers)`; in particular
`check_answer([], correct_answers)` is always true. -/
theorem claim_C1 (user_answers : List Bool) (correct_answers : List Int) :
    (check_answer user_answers correct_answers = true ↔
      user_answers.map (fun x => if x then (1 : Int) else 0) =
        correct_answers.take user_answers.length)
    ∧ check_answer [] correct_answers = true := by
  constructor
  · simp [check_answer]
  · simp [check_answer]

/-- Claim C5: a user sequence strictly longer than `correct_answers` is
never accepted by `check_answer`, since only `correct_answers` is
truncated. -/
theorem claim_C5 (user_answers : List Bool) (correct_answers : List Int)
    (h : correct_answers.length < user_answers.length) :
    check_answer user_answers correct_answers = false := by
  by_contra hT
  simp only [Bool.not_eq_false] at hT
  simp only [check_answer, beq_iff_eq] at hT
  have hlen := congrArg List.length hT
  simp only [List.length_map, List.length_take] at hlen
  omega

/-- Witness for C5 at a concrete longer-than-correct input. -/
theorem claim_C5_witness : check_answer [true, true] [1] = false :=
  claim_C5 [true, true] [1] (by decide)

/-- Claim C7: `parse_answers` trims, splits on whitespace and converts
each token with `int()`; it matches the spec's examples, and it raises
exactly when some whitespace-delimited token is not parseable as an
integer. -/
theorem claim_C7 :
    parse_answers "1 1 0 0" = Except.ok [1, 1, 0, 0]
    ∧ parse_answers "" = Except.ok []
    ∧ parse_answers "1 x 0" = Except.error PyError.valueError
    ∧ ∀ s : String, (∃ e, parse_answers s = Except.error e) ↔
        ∃ t ∈ pySplit (pyStrip s), ∃ e, pyInt t = Except.error e := by
  refine ⟨by decide, by decide, by decide, ?_⟩
  intro s
  exact mapExcept_error_iff pyInt (pySplit (pyStrip s))

/-- Witness for C7: instantiates the failure equivalence at "1 x 0". -/
theorem claim_C7_witness :
    ∃ t ∈ pySplit (pyStrip "1 x 0"), ∃ e, pyInt t = Except.error e :=
  (claim_C7.2.2.2 "1 x 0").mp ⟨PyError.valueError, by decide⟩

/-- Claim C3: when `question['Answers'][0]` parses, `get_question_type`
returns the sum of the encoding as the count and classifies the question
as `"single"` exactly when the count is 1, `"multiple"` otherwise
(including 0 and more than 1). -/
theorem claim_C3 (question : Question) (s : String) (l : List Int)
    (h1 : answersFirst question = Except.ok s)
    (h2 : parse_answers s = Except.ok l) :
    get_question_type question =
      Except.ok (if l.sum = 1 then "single" else "multiple", l.sum) := by
  simp only [get_question_type, h1, h2]

/-- Witness for C3 at the spec's example `{'Answers': ['1 0 0 0']}`. -/
theorem claim_C3_witness :
    get_question_type [("Answers", Value.list ["1 0 0 0"])] =
      Except.ok
        (if List.sum [1, 0, 0, 0] = 1 then "single" else "multiple",
          List.sum ([1, 0, 0, 0] : List Int)) :=
  claim_C3 [("Answers", Value.list ["1 0 0 0"])] "1 0 0 0" [1, 0, 0, 0]
    (by decide) (by decide)

/-- Claim C9: `get_question_type` fails abruptly — with the
missing-data exceptions `KeyError`/`IndexError` — when `Answers` is
absent or its value is an empty string or empty list, and with the
format exception `ValueError` when the first element does not parse. -/
theorem claim_C9 (question : Question) :
    (question.get? "Answers" = none →
      get_question_type question = Except.error PyError.keyError)
    ∧ (question.get? "Answers" = some (Value.str "") →
      get_question_type question = Except.error PyError.indexError)
    ∧ (question.get? "Answers" = some (Value.list []) →
      get_question_type question = Except.error PyError.indexError)
    ∧ (∀ s, answersFirst question = Except.ok s →
        ∀ e, parse_answers s = Except.error e →
          get_question_type question = Except.error e ∧ e = PyError.valueError) := by
  refine ⟨?_, ?_, ?_, ?_⟩
  · intro h
    rw [get_question_type, answersFirst, answersField, h]
  · intro h
    rw [get_question_type, answersFirst, answersField, h]
    rfl
  · intro h
    rw [get_question_type, answersFirst, answersField, h]
    rfl
  · intro s hs e he
    constructor
    · simp only [get_question_type, hs, he]
    · rw [parse_answers] at he
      exact mapExcept_pyInt_error _ e he

/-- Witness for C9: each failure mode at a concrete question. -/
theorem claim_C9_witness :
    get_question_type [] = Except.error PyError.keyError
    ∧ get_question_type [("Answers", Value.str "")] = Except.error PyError.indexError
    ∧ get_question_type [("Answers", Value.list [])] = Except.error PyError.indexError
    ∧ (get_question_type [("Answers", Value.list ["1 x 0"])] =
          Except.error PyError.valueError
        ∧ PyError.valueError = PyError.valueError) :=
  ⟨(claim_C9 []).1 (by decide),
   (claim_C9 [("Answers", Value.str "")]).2.1 (by decide),
   (claim_C9 [("Answers", Value.list [])]).2.2.1 (by decide),
   (claim_C9 [("Answers", Value.list ["1 x 0"])]).2.2.2 "1 x 0" (by decide)
     PyError.valueError (by decide)⟩

/-- Claim C8: `validate_question_format` reports a missing `Question`
field first, then a missing `Answers` field, then rejects an `Answers`
value that is neither a list nor a string, and otherwise accepts; the
outcome depends only on which constructor `Answers` has, never on its
contents, and the embedded function is total (never raises). -/
theorem claim_C8 (question : Question) :
    (question.hasField "Question" = false →
      validate_question_format question = (false, "Missing required field: Question"))
    ∧ (question.hasField "Question" = true → question.hasField "Answers" = false →
      validate_question_format question = (false, "Missing required field: Answers"))
    ∧ (∀ v, question.hasField "Question" = true →
        question.get? "Answers" = some v →
        validate_question_format question =
          if isListOrStr v then (true, "")
          else (false, "Invalid 'Answers' format: must be a list or string")) := by
  refine ⟨?_, ?_, ?_⟩
  · intro h
    simp [validate_question_format, h]
  · intro hQ hA
    simp [validate_question_format, hQ, hA]
  · intro v hQ hA
    have hA' : question.hasField "Answers" = true := by
      simp [Question.hasField, hA]
    have hg : question.getDefault "Answers" = v := by
      simp [Question.getDefault, hA]
    cases hLS : isListOrStr v with
    | false => simp [validate_question_format, hQ, hA', hg, hLS]
    | true => simp [validate_question_format, hQ, hA', hg, hLS]

/-- Witness for C8: the spec's example `{'Question': 'Q?'}` and an
invalid-format `Answers`. -/
theorem claim_C8_witness :
    validate_question_format [("Question", Value.str "Q?")] =
      (false, "Missing required field: Answers")
    ∧ validate_question_format [("Question", Value.str "Q?"), ("Answers", Value.intV 3)] =
      (if isListOrStr (Value.intV 3) then (true, "")
        else (false, "Invalid 'Answers' format: must be a list or string")) :=
  ⟨(claim_C8 [("Question", Value.str "Q?")]).2.1 (by decide) (by decide),
   (claim_C8 [("Question", Value.str "Q?"), ("Answers", Value.intV 3)]).2.2
     (Value.intV 3) (by decide) (by decide)⟩

/-- The enumerate loop of `validate_questions` stops at the first failing
question and reports its position relative to the starting counter. -/
theorem validateLoop_first_failure :
    ∀ (l1 : List Question) (q : Question) (l2 : List Question) (i : Nat),
      (∀ p ∈ l1, (validate_question_format p).1 = true) →
      (validate_question_format q).1 = false →
      validateLoop (l1 ++ q :: l2) i =
        (false, "Question " ++ toString (i + l1.length + 1) ++ ": " ++
          (validate_question_format q).2) := by
  intro l1
  induction l1 with
  | nil =>
    intro q l2 i _ hq
    simp [validateLoop, hq]
  | cons p l1 ih =>
    intro q l2 i hpass hq
    have hp := hpass p (List.mem_cons_self p l1)
    have hrest := fun r hr => hpass r (List.mem_cons_of_mem p hr)
    have harith : i + 1 + l1.length + 1 = i + (p :: l1).length + 1 := by
      simp
      omega
    rw [List.cons_append, validateLoop]
    simp only [hp, Bool.not_true]
    rw [if_neg (by simp)]
    rw [ih q l2 (i + 1) hrest hq, harith]

/-- The enumerate loop of `validate_questions` succeeds exactly when
every question passes `validate_question_format`. -/
theorem validateLoop_ok_iff :
    ∀ (qs : List Question) (i : Nat),
      validateLoop qs i = (true, "") ↔
        ∀ q ∈ qs, (validate_question_format q).1 = true := by
  intro qs
  induction qs with
  | nil => intro i; simp [validateLoop]
  | cons q qs ih =>
    intro i
    cases hq : (validate_question_format q).1 with
    | false =>
      simp [validateLoop, hq]
    | true =>
      rw [validateLoop]
      simp only [hq, Bool.not_true]
      rw [if_neg (by simp)]
      rw [ih (i + 1)]
      constructor
      · intro hall
        intro r hr
        rcases List.mem_cons.mp hr with h1 | h1
        · rw [h1]; exact hq
        · exact hall r h1
      · intro hall r hr
        exact hall r (List.mem_cons_of_mem q hr)

/-- Claim C4: `validate_questions` rejects an empty deck with the exact
message, reports the first failing question with its 1-based position
without depending on the questions after it, and succeeds with `(true,
"")` exactly when the deck is non-empty and every question passes
`validate_question_format`. -/
theorem claim_C4 :
    validate_questions [] = (false, "No questions found in the deck")
    ∧ (∀ (l1 : List Question) (q : Question) (l2 : List Question),
        (∀ p ∈ l1, (validate_question_format p).1 = true) →
        (validate_question_format q).1 = false →
        validate_questions (l1 ++ q :: l2) =
          (false, "Question " ++ toString (l1.length + 1) ++ ": " ++
            (validate_question_format q).2))
    ∧ (∀ qs : List Question,
        validate_questions qs = (true, "") ↔
          qs ≠ [] ∧ ∀ q ∈ qs, (validate_question_format q).1 = true) := by
  refine ⟨rfl, ?_, ?_⟩
  · intro l1 q l2 hpass hq
    have hne : (l1 ++ q :: l2).isEmpty = false := by
      cases l1 <;> rfl
    rw [validate_questions, hne]
    rw [if_neg (by simp)]
    have := validateLoop_first_failure l1 q l2 0 hpass hq
    rw [this]
    simp
  · intro qs
    cases qs with
    | nil =>
      constructor
      · intro h; cases h
      · rintro ⟨h, _⟩; exact absurd rfl h
    | cons q qs =>
      rw [validate_questions]
      rw [if_neg (by simp)]
      rw [validateLoop_ok_iff (q :: qs) 0]
      simp

/-- Witness for C4: the spec's two-question example, via the
first-failure clause. -/
theorem claim_C4_witness :
    validate_questions
        [[("Question", Value.str "Q"), ("Answers", Value.str "1 0")],
         [("Question", Value.str "Q2")]] =
      (false, "Question " ++
        toString (List.length [([("Question", Value.str "Q"),
          ("Answers", Value.str "1 0")] : Question)] + 1) ++ ": " ++
        (validate_question_format [("Question", Value.str "Q2")]).2) :=
  claim_C4.2.1 [[("Question", Value.str "Q"), ("Answers", Value.str "1 0")]]
    [("Question", Value.str "Q2")] [] (by decide) (by decide)

/-- A successful `slotStripped` determines `slotText`. -/
theorem slotText_eq (question : Question) (i : Nat) (t : String)
    (h : slotStripped question i = Except.ok t) : slotText question i = t := by
  unfold slotStripped at h
  cases hv : question.getDefault ("Q_" ++ toString i) with
  | str s =>
    rw [hv] at h
    injection h with h
    simp [slotText, hv, h]
  | list l => rw [hv] at h; cases h
  | intV n => rw [hv] at h; cases h

/-- The options loop of `get_shuffled_options` appends exactly the
non-empty slots' pairs, in slot order. -/
theorem collectLoop_ok (ca : List Int) (question : Question) :
    ∀ (is : List Nat) (acc l : List (String × Int)),
      collectLoop ca question is acc = Except.ok l →
      l = acc ++ is.filterMap (slotPair ca question) := by
  intro is
  induction is with
  | nil =>
    intro acc l h
    rw [collectLoop] at h
    injection h with h
    simp [h]
  | cons i is ih =>
    intro acc l h
    rw [collectLoop] at h
    cases hslot : slotStripped question i with
    | error e => rw [hslot] at h; cases h
    | ok t =>
      rw [hslot] at h
      have h2 : (if t ≠ "" then
          collectLoop ca question is (acc ++ [(t, slotFlag ca i)])
          else collectLoop ca question is acc) = Except.ok l := h
      by_cases ht : t = ""
      · rw [if_neg (by simp [ht])] at h2
        have hrec := ih acc l h2
        simp [hrec, List.filterMap_cons, slotPair, hslot, ht]
      · rw [if_pos ht] at h2
        have hrec := ih (acc ++ [(t, slotFlag ca i)]) l h2
        simp [hrec, List.filterMap_cons, slotPair, hslot, ht]

/-- When the options loop succeeds, every visited slot held a string. -/
theorem collectLoop_ok_slots (ca : List Int) (question : Question) :
    ∀ (is : List Nat) (acc l : List (String × Int)),
      collectLoop ca question is acc = Except.ok l →
      ∀ i ∈ is, ∃ t, slotStripped question i = Except.ok t := by
  intro is
  induction is with
  | nil => intro acc l _ i hi; cases hi
  | cons j is ih =>
    intro acc l h i hi
    rw [collectLoop] at h
    cases hslot : slotStripped question j with
    | error e => rw [hslot] at h; cases h
    | ok t =>
      rw [hslot] at h
      have h2 : (if t ≠ "" then
          collectLoop ca question is (acc ++ [(t, slotFlag ca j)])
          else collectLoop ca question is acc) = Except.ok l := h
      rcases List.mem_cons.mp hi with h1 | h1
      · exact ⟨t, h1 ▸ hslot⟩
      · by_cases ht : t = ""
        · rw [if_neg (by simp [ht])] at h2
          exact ih acc l h2 i h1
        · rw [if_pos ht] at h2
          exact ih (acc ++ [(t, slotFlag ca j)]) l h2 i h1

/-- Over slots that hold strings, the collected pairs are in bijection
with the slots whose trimmed text is non-empty. -/
theorem filterMap_slotPair_length (ca : List Int) (question : Question) :
    ∀ is : List Nat,
      (∀ i ∈ is, ∃ t, slotStripped question i = Except.ok t) →
      (is.filterMap (slotPair ca question)).length =
        (is.filter (fun i => slotText question i != "")).length := by
  intro is
  induction is with
  | nil => intro _; rfl
  | cons i is ih =>
    intro h
    obtain ⟨t, hslot⟩ := h i (List.mem_cons_self i is)
    have hrest := fun j hj => h j (List.mem_cons_of_mem i hj)
    have hst := slotText_eq question i t hslot
    by_cases ht : t = ""
    · simp [List.filterMap_cons, List.filter_cons, slotPair, hslot, ht, hst,
        ih hrest]
    · simp [List.filterMap_cons, List.filter_cons, slotPair, hslot, ht, hst,
        ih hrest]

/-- Zipping the two projections of a pair list restores it. -/
theorem zip_proj (l : List (α × β)) :
    (l.map Prod.fst).zip (l.map Prod.snd) = l := by
  have h := List.zip_unzip l
  rwa [List.unzip_eq_map] at h

/-- Claim C2: under any permutation `shuffle`, a successful
`get_shuffled_options` returns two sequences whose common length is the
number of non-empty `Q_i` slots, and zipping them yields a permutation
of the `(option, flag)` pairs collected from the non-empty slots in slot
order — each option keeps its own flag. -/
theorem claim_C2 (shuffle : List (String × Int) → List (String × Int))
    (question : Question) (s : String) (ca : List Int)
    (opts : List (String × Int))
    (hshuffle : ∀ l : List (String × Int), (shuffle l).Perm l)
    (h1 : answersFirst question = Except.ok s)
    (h2 : parse_answers s = Except.ok ca)
    (hco : collectOptions question = Except.ok opts) :
    ∃ os fs, get_shuffled_options shuffle question = Except.ok (os, fs)
      ∧ os.length = (nonEmptySlots question).length
      ∧ fs.length = (nonEmptySlots question).length
      ∧ (os.zip fs).Perm
          (([1, 2, 3, 4, 5, 6] : List Nat).filterMap (slotPair ca question)) := by
  have hloop : collectLoop ca question [1, 2, 3, 4, 5, 6] [] = Except.ok opts := by
    simp only [collectOptions, h1, h2] at hco
    exact hco
  have hopts : opts = ([1, 2, 3, 4, 5, 6] : List Nat).filterMap (slotPair ca question) := by
    simpa using collectLoop_ok ca question [1, 2, 3, 4, 5, 6] [] opts hloop
  have hslots := collectLoop_ok_slots ca question [1, 2, 3, 4, 5, 6] [] opts hloop
  have hcount := filterMap_slotPair_length ca question [1, 2, 3, 4, 5, 6] hslots
  have hperm : (shuffle opts).Perm opts := hshuffle opts
  have hlen : (shuffle opts).length = (nonEmptySlots question).length := by
    rw [hperm.length_eq, hopts, hcount]
    rfl
  refine ⟨(shuffle opts).map Prod.fst, (shuffle opts).map Prod.snd, ?_, ?_, ?_, ?_⟩
  · rw [get_shuffled_options, hco]
  · simp [hlen]
  · simp [hlen]
  · rw [zip_proj]
    exact hopts ▸ hperm

/-- Witness for C2 with `List.reverse` as the permutation. -/
theorem claim_C2_witness :
    ∃ os fs,
      get_shuffled_options List.reverse
          [("Answers", Value.list ["1 0"]), ("Q_1", Value.str " A "),
           ("Q_2", Value.str "B"), ("Q_3", Value.str "  ")] =
        Except.ok (os, fs)
      ∧ os.length = (nonEmptySlots
          [("Answers", Value.list ["1 0"]), ("Q_1", Value.str " A "),
           ("Q_2", Value.str "B"), ("Q_3", Value.str "  ")]).length
      ∧ fs.length = (nonEmptySlots
          [("Answers", Value.list ["1 0"]), ("Q_1", Value.str " A "),
           ("Q_2", Value.str "B"), ("Q_3", Value.str "  ")]).length
      ∧ (os.zip fs).Perm
          (([1, 2, 3, 4, 5, 6] : List Nat).filterMap (slotPair [1, 0]
            [("Answers", Value.list ["1 0"]), ("Q_1", Value.str " A "),
             ("Q_2", Value.str "B"), ("Q_3", Value.str "  ")])) :=
  claim_C2 List.reverse
    [("Answers", Value.list ["1 0"]), ("Q_1", Value.str " A "),
     ("Q_2", Value.str "B"), ("Q_3", Value.str "  ")]
    "1 0" [1, 0] [("A", 1), ("B", 0)]
    (fun l => List.reverse_perm l) (by decide) (by decide) (by decide)

/-- Claim C6: in `get_shuffled_options` the pre-shuffle collection pairs
each non-empty slot's trimmed text with the encoding entry at position
`i-1` when that position exists and with 0 otherwise; an under-length
encoding is not an error. -/
theorem claim_C6 (question : Question) (s : String) (ca : List Int)
    (opts : List (String × Int))
    (h1 : answersFirst question = Except.ok s)
    (h2 : parse_answers s = Except.ok ca)
    (hco : collectOptions question = Except.ok opts) :
    opts = ([1, 2, 3, 4, 5, 6] : List Nat).filterMap (slotPair ca question)
    ∧ ∀ i ∈ ([1, 2, 3, 4, 5, 6] : List Nat), ∀ t,
        slotStripped question i = Except.ok t → t ≠ "" →
        (t, if h : i - 1 < ca.length then ca.get ⟨i - 1, h⟩ else 0) ∈ opts := by
  have hloop : collectLoop ca question [1, 2, 3, 4, 5, 6] [] = Except.ok opts := by
    simp only [collectOptions, h1, h2] at hco
    exact hco
  have hopts : opts = ([1, 2, 3, 4, 5, 6] : List Nat).filterMap (slotPair ca question) := by
    simpa using collectLoop_ok ca question [1, 2, 3, 4, 5, 6] [] opts hloop
  refine ⟨hopts, ?_⟩
  intro i hi t hslot ht
  rw [hopts]
  rw [List.mem_filterMap]
  refine ⟨i, hi, ?_⟩
  simp only [slotPair, hslot]
  simp [ht, slotFlag]

/-- Witness for C6: slot 2 falls outside the one-entry encoding "1" and
gets flag 0; slot 1 gets its own entry. -/
theorem claim_C6_witness :
    ([("A", 1), ("B", 0)] : List (String × Int)) =
      ([1, 2, 3, 4, 5, 6] : List Nat).filterMap (slotPair [1]
        [("Answers", Value.list ["1"]), ("Q_1", Value.str "A"),
         ("Q_2", Value.str "B")])
    ∧ (("B" : String),
        if h : 2 - 1 < ([1] : List Int).length then ([1] : List Int).get ⟨2 - 1, h⟩
        else 0) ∈ ([("A", 1), ("B", 0)] : List (String × Int)) :=
  ⟨(claim_C6 [("Answers", Value.list ["1"]), ("Q_1", Value.str "A"),
      ("Q_2", Value.str "B")] "1" [1] [("A", 1), ("B", 0)]
      (by decide) (by decide) (by decide)).1,
   (claim_C6 [("Answers", Value.list ["1"]), ("Q_1", Value.str "A"),
      ("Q_2", Value.str "B")] "1" [1] [("A", 1), ("B", 0)]
      (by decide) (by decide) (by decide)).2 2 (by decide) "B"
      (by decide) (by decide)⟩

/-- Claim C10: when `Answers` is a non-empty string — a shape
`validate_question_format` accepts — `question['Answers'][0]` is just
the first character, so `get_question_type` and `get_shuffled_options`
take that one character as the whole encoding: `{'Answers': '1 1 1'}`
classifies as `("single", 1)` and the second option's flag defaults to
0, every token after the first character being ignored. -/
theorem claim_C10 :
    (∀ (question : Question) (c : Char) (rest : List Char),
      question.get? "Answers" = some (Value.str (String.mk (c :: rest))) →
      answersFirst question = Except.ok (String.mk [c]))
    ∧ validate_question_format strAnswersQ = (true, "")
    ∧ get_question_type strAnswersQ = Except.ok ("single", 1)
    ∧ get_shuffled_options id strAnswersQ = Except.ok (["A", "B"], [1, 0]) := by
  refine ⟨?_, by decide, by decide, by decide⟩
  intro question c rest h
  simp only [answersFirst, answersField, h]
  rfl

/-- Witness for C10: the first character of "abc" is extracted. -/
theorem claim_C10_witness :
    answersFirst [("Answers", Value.str "abc")] = Except.ok (String.mk ['a']) :=
  claim_C10.1 [("Answers", Value.str "abc")] 'a' ['b', 'c'] (by decide)

/-- Witness for C1: the equivalence applied at a concrete input. -/
theorem claim_C1_witness : check_answer [true, false] [1, 0, 1] = true :=
  ((claim_C1 [true, false] [1, 0, 1]).1).mpr (by decide)
